import Mathlib

/-!
Verification development for the fuzzy-driving traffic simulator
(repository kstn-cntt-k60/20182-fuzzy).

Shallow embedding conventions:
- Rust `f32` values are modelled as exact rationals (ℚ): every arithmetic
  operation appearing in the embedded code is piecewise-linear over
  literal rational breakpoints, so the idealised real semantics is the
  intended one.
- Rust `u16` vertex indices are modelled as `Nat` reduced modulo 2^16 at
  the point of truncation (`as u16`).
- `assert!` (a panic on failure) is modelled by returning `none` from an
  `Option`-valued function.
- `println!` output is modelled by threading an explicit `List String`
  of emitted messages through the reducer.
- Code of the repository that is not part of the inspected sources
  (the generic Fuzzy engine, `Car::from_positions`,
  `CarSystem::find_car_near`, the camera internals, the chosen-path
  index construction) is modelled from the specification; each such
  definition carries a doc comment starting with `Modelled from the
  spec:`.
-/

/-- Modelled from the spec: the generic Fuzzy engine (not among the
inspected sources).  An engine instance owns a list of scalar inputs,
each with a declared range, and a list of fuzzy sets, each attaching a
membership function to one input (identified by its handle).  Handles
are indices into the respective lists. -/
structure Fuzzy where
  inputs : List (ℚ × ℚ)
  sets : List (Nat × (ℚ → ℚ))

/-- Modelled from the spec: `add_input(min, max)` registers a new scalar
domain and returns its handle (the index of the new input). -/
def Fuzzy.add_input (f : Fuzzy) (min max : ℚ) : Nat × Fuzzy :=
  (f.inputs.length, { f with inputs := f.inputs ++ [(min, max)] })

/-- Modelled from the spec: `add_input_set(input, membership_fn)`
attaches a membership function to an existing input and returns the
set handle (the index of the new set). -/
def Fuzzy.add_input_set (f : Fuzzy) (input : Nat) (g : ℚ → ℚ) :
    Nat × Fuzzy :=
  (f.sets.length, { f with sets := f.sets ++ [(input, g)] })

/-- The road-deviation controller definition: one input handle and the
seven membership-set handles (src/car/fuzzy/road_deviation.rs). -/
structure RoadDeviation where
  input : Nat
  far_left : Nat
  middle_left : Nat
  left : Nat
  middle : Nat
  right : Nat
  middle_right : Nat
  far_right : Nat

namespace RoadDeviation

/-- `RoadDeviation::far_left_fn` (road_deviation.rs lines 4-16). -/
def far_left_fn (x : ℚ) : ℚ :=
  let x1 : ℚ := 1/10
  let x2 : ℚ := 1/4
  if x < x1 then 1
  else if x < x2 then (x2 - x) / (x2 - x1)
  else 0

/-- `RoadDeviation::middle_left_fn` (road_deviation.rs lines 18-35). -/
def middle_left_fn (x : ℚ) : ℚ :=
  let x1 : ℚ := 1/10
  let x2 : ℚ := 1/4
  let x3 : ℚ := 2/5
  if x < x1 then 0
  else if x < x2 then (x - x1) / (x2 - x1)
  else if x < x3 then (x3 - x) / (x3 - x2)
  else 0

/-- `RoadDeviation::left_fn` (road_deviation.rs lines 37-49). -/
def left_fn (x : ℚ) : ℚ :=
  let x1 : ℚ := 7/20
  let x2 : ℚ := 1/2
  if x < x1 then 1
  else if x < x2 then (x2 - x) / (x2 - x1)
  else 0

/-- `RoadDeviation::middle_fn` (road_deviation.rs lines 51-68). -/
def middle_fn (x : ℚ) : ℚ :=
  let x1 : ℚ := 7/20
  let x2 : ℚ := 1/2
  let x3 : ℚ := 13/20
  if x < x1 then 0
  else if x < x2 then (x - x1) / (x2 - x1)
  else if x < x3 then (x3 - x) / (x3 - x2)
  else 0

/-- `RoadDeviation::right_fn` (road_deviation.rs lines 70-82). -/
def right_fn (x : ℚ) : ℚ :=
  let x1 : ℚ := 1/2
  let x2 : ℚ := 13/20
  if x < x1 then 0
  else if x < x2 then (x - x1) / (x2 - x1)
  else 1

/-- `RoadDeviation::middle_right_fn` (road_deviation.rs lines 84-101). -/
def middle_right_fn (x : ℚ) : ℚ :=
  let x1 : ℚ := 3/5
  let x2 : ℚ := 3/4
  let x3 : ℚ := 9/10
  if x < x1 then 0
  else if x < x2 then (x - x1) / (x2 - x1)
  else if x < x3 then (x3 - x) / (x3 - x2)
  else 0

/-- `RoadDeviation::far_right_fn` (road_deviation.rs lines 103-115). -/
def far_right_fn (x : ℚ) : ℚ :=
  let x1 : ℚ := 3/4
  let x2 : ℚ := 9/10
  if x < x1 then 0
  else if x < x2 then (x - x1) / (x2 - x1)
  else 1

/-- `RoadDeviation::new` (road_deviation.rs lines 117-152): registers
one input over [0, 1] and attaches the seven membership functions to it
in declaration order, storing the returned handles. -/
def new (fuzzy : Fuzzy) : RoadDeviation × Fuzzy :=
  let r0 := fuzzy.add_input 0 1
  let input := r0.1
  let f0 := r0.2
  let r1 := f0.add_input_set input far_left_fn
  let far_left := r1.1
  let f1 := r1.2
  let r2 := f1.add_input_set input middle_left_fn
  let middle_left := r2.1
  let f2 := r2.2
  let r3 := f2.add_input_set input left_fn
  let left := r3.1
  let f3 := r3.2
  let r4 := f3.add_input_set input middle_fn
  let middle := r4.1
  let f4 := r4.2
  let r5 := f4.add_input_set input right_fn
  let right := r5.1
  let f5 := r5.2
  let r6 := f5.add_input_set input middle_right_fn
  let middle_right := r6.1
  let f6 := r6.2
  let r7 := f6.add_input_set input far_right_fn
  let far_right := r7.1
  let f7 := r7.2
  (⟨input, far_left, middle_left, left, middle, right,
    middle_right, far_right⟩, f7)

end RoadDeviation

namespace Sim

/-- A 2D point (`bezier::Point`, accessed through the road module). -/
structure Point where
  x : ℚ
  y : ℚ
deriving DecidableEq

/-- `road::Lane`: a lane with its endpoint locations and its left/right
boundary bezier handle sequences (`road::DirectedBezier` handles are
modelled as `Nat`). -/
structure Lane where
  from_ : Nat
  to_ : Nat
  left : List Nat
  right : List Nat
deriving DecidableEq

/-- `road::CrossSection`: a junction connector across three locations
with its left/right boundary bezier handle sequences. -/
structure CrossSection where
  from_ : Nat
  across : Nat
  to_ : Nat
  left : List Nat
  right : List Nat
deriving DecidableEq

/-- `road::Road` as seen by the renderer and the reducer: lanes,
cross-sections, the analytic bezier lookup, and the externally tracked
chosen path with its change flag.  `get_bezier` returns the analytic
curve of a handle as its position function `[0,1] → Point`; it is
Modelled from the spec: the bezier module is not among the inspected
sources, so the curve evaluator is kept abstract as a function field.
`chosen_path` is modelled as the list of (from, to) lane endpoint
pairs making up the path, and `chosen_path_changed` is the explicit
dirty flag the spec requires the road to expose. -/
structure Road where
  lanes : List Lane
  cross_sections : List CrossSection
  get_bezier : Nat → ℚ → Point
  chosen_path : List (Nat × Nat)
  chosen_path_changed : Bool

/-- `car::CarState` (behavioural state).  Only `GoNormal` appears in the
inspected sources; the spec requires at least a stopped state as well. -/
inductive CarState where
  | GoNormal
  | StoppedAtSignal
deriving DecidableEq

/-- `car::CarType`: a Normal car carrying a `CarState`, or a Slow car. -/
inductive CarType where
  | Normal (s : CarState)
  | Slow
deriving DecidableEq

/-- `car::Car`: Modelled from the spec: a vehicle carries its `CarType`
and a position; the remaining per-vehicle data (path, progress) does
not appear in the inspected sources and is irrelevant to the claims. -/
structure Car where
  car_type : CarType
  pos : ℚ × ℚ
deriving DecidableEq

/-- `car::AddCar`: the add-mode state machine of vehicle placement
(idle, awaiting the first point, first point held). -/
inductive AddCar where
  | Nope
  | Adding
  | AddedPoint (p : ℚ × ℚ)
deriving DecidableEq

/-- `car::CarSystem` as used by the reducer: the live cars, the add-mode
state, the pending car type for the next placement, and the currently
chosen (inspected) car. -/
structure CarSystem where
  cars : List Car
  add_car : AddCar
  add_car_type : CarType
  chosen_car : Option Nat
deriving DecidableEq

/-- Modelled from the spec: `CarSystem::add` appends the created vehicle
to the set of live vehicles owned by the car system. -/
def CarSystem.add (cs : CarSystem) (car : Car) : CarSystem :=
  { cs with cars := cs.cars ++ [car] }

/-- `camera::Camera`, Modelled from the spec: the camera is an excluded
presentation concern; only the screen-to-world transform used by the
click handler is kept, as an abstract function field. -/
structure Camera where
  screen_coords_to_real_position : ℚ → ℚ → ℚ × ℚ

/-- `action::CameraAction` (zoom or drag). -/
inductive CameraAction where
  | Zoom (v : Int)
  | Drag (from_ : ℚ × ℚ) (to_ : ℚ × ℚ) (completed : Bool)

/-- `action::Action` as consumed by `reducer::reduce`: camera actions,
a click at screen coordinates, escape (cancel), and the two
set-next-vehicle-type commands. -/
inductive Action where
  | Camera (a : CameraAction)
  | Click (x y : ℚ)
  | Esc
  | AddCar
  | AddCarSlow

/-- `context::Context` as used by the reducer: camera, road and car
system (display/config/renderer fields are untouched by the reducer and
are omitted). -/
structure Context where
  camera : Camera
  road : Road
  car_system : CarSystem

/-- The external collaborators of the reducer that are not among the
inspected sources, kept abstract.  `camera_step`, Modelled from the
spec: the camera internals (`increase_room_scale`, drag handling) are
an excluded presentation concern; `camera_reducer` in the source
mutates only `context.camera`, which this field captures.
`find_car_near`, Modelled from the spec: searches the live cars for one
near a world position, possibly finding none.  `from_positions`,
Modelled from the spec: resolves a path between two positions on the
road via the path planner and creates a vehicle of the requested type
at the start, or returns none when no path exists. -/
structure Env where
  camera_step : Camera → CameraAction → Camera
  find_car_near : List Car → ℚ × ℚ → Option Nat
  from_positions : Road → ℚ × ℚ → ℚ × ℚ → CarType → Option Car

/-- One iteration of the action loop in `reducer::reduce`
(reducer.rs lines 44-85).  The second component of the state is the
list of messages printed so far (`println!` is modelled as appending to
it). -/
def reduce1 (env : Env) (s : Context × List String) (a : Action) :
    Context × List String :=
  let c := s.1
  match a with
  | Action.Camera ca =>
      ({ c with camera := env.camera_step c.camera ca }, s.2)
  | Action.Click x y =>
      let p := c.camera.screen_coords_to_real_position x y
      match c.car_system.add_car with
      | AddCar.Nope =>
          let car := env.find_car_near c.car_system.cars p
          ({ c with car_system :=
              { c.car_system with
                  chosen_car := car,
                  add_car := AddCar.Nope } }, s.2)
      | AddCar.Adding =>
          ({ c with car_system :=
              { c.car_system with add_car := AddCar.AddedPoint p } }, s.2)
      | AddCar.AddedPoint prev_pos =>
          let car_type := c.car_system.add_car_type
          match env.from_positions c.road prev_pos p car_type with
          | some car =>
              ({ c with car_system :=
                  { (c.car_system.add car) with
                      add_car := AddCar.Nope } }, s.2)
          | none =>
              ({ c with car_system :=
                  { c.car_system with add_car := AddCar.Nope } },
               s.2 ++ ["Error while chosing points to add a car"])
  | Action.Esc =>
      ({ c with car_system :=
          { c.car_system with add_car := AddCar.Nope } }, s.2)
  | Action.AddCar =>
      ({ c with car_system :=
          { c.car_system with
              add_car := AddCar.Adding,
              add_car_type := CarType.Normal CarState.GoNormal } }, s.2)
  | Action.AddCarSlow =>
      ({ c with car_system :=
          { c.car_system with
              add_car := AddCar.Adding,
              add_car_type := CarType.Slow } }, s.2)

/-- `reducer::reduce` (reducer.rs lines 38-86): folds the action list
over the context, threading the printed messages. -/
def reduce (env : Env) (s : Context × List String)
    (actions : List Action) : Context × List String :=
  actions.foldl (reduce1 env) s

/-- The type selected by the most recent AddCar/AddCarSlow command of a
sequence, starting from a default.  This is the specification-side
reading of "the most recent set-next-vehicle-type command"; it is used
only in theorem statements. -/
def lastTypeSet (actions : List Action) (t0 : CarType) : CarType :=
  actions.foldl
    (fun t a =>
      match a with
      | Action.AddCar => CarType.Normal CarState.GoNormal
      | Action.AddCarSlow => CarType.Slow
      | _ => t) t0

/-- `road_renderer::Vertex`: a 2D position (renderer.rs lines 21-24). -/
structure Vertex where
  position : ℚ × ℚ
deriving DecidableEq

/-- `BEZIER_VCOUNT` (renderer.rs line 66). -/
def BEZIER_VCOUNT : Nat := 16

/-- `add_vertex` (renderer.rs lines 91-96): appends a vertex and
returns its index truncated to u16. -/
def add_vertex (vertices : List Vertex) (p : Point) : Nat × List Vertex :=
  (vertices.length % 2 ^ 16, vertices ++ [{ position := (p.x, p.y) }])

/-- The mutable state threaded through the loops of
`update_from_beziers`: the four index/vertex vectors and the two
previous indices. -/
structure UFBState where
  vertices : List Vertex
  indices : List Nat
  border_indices : List Nat
  right_indices : List Nat
  i1 : Nat
  i2 : Nat
deriving DecidableEq

/-- The body of the inner `for k in 0..BEZIER_VCOUNT` loop of
`update_from_beziers` (renderer.rs lines 128-148), for fixed left and
right bezier curves `b1`, `b2`. -/
def ufb_inner (b1 b2 : ℚ → Point) (s : UFBState) (k : Nat) : UFBState :=
  let v : ℚ := (k + 1 : Nat) / (BEZIER_VCOUNT : ℚ)
  let a := b1 v
  let b := b2 v
  let r1 := add_vertex s.vertices a
  let r2 := add_vertex r1.2 b
  { vertices := r2.2,
    indices := s.indices ++ [s.i1, s.i2, r1.1, r1.1, s.i2, r2.1],
    border_indices := s.border_indices ++ [s.i1, r1.1, s.i2, r2.1],
    right_indices := s.right_indices ++ [s.i2, r2.1],
    i1 := r1.1,
    i2 := r2.1 }

/-- `update_from_beziers` (renderer.rs lines 98-153).  The two
`assert!` calls (nonzero bezier count, equal left/right counts) are
modelled by returning `none` (a panic); on success the updated
(vertices, indices, border_indices, right_indices) are returned. -/
def update_from_beziers (road : Road) (vertices : List Vertex)
    (indices border_indices : List Nat) (left right : List Nat)
    (right_indices : List Nat) :
    Option (List Vertex × List Nat × List Nat × List Nat) :=
  let bezier_count := left.length
  if ¬ 0 < bezier_count then none
  else if ¬ bezier_count = right.length then none
  else
    let b1 := road.get_bezier (left.getD 0 0)
    let b2 := road.get_bezier (right.getD 0 0)
    let r1 := add_vertex vertices (b1 0)
    let r2 := add_vertex r1.2 (b2 0)
    let s0 : UFBState :=
      { vertices := r2.2,
        indices := indices,
        border_indices := border_indices ++ [r1.1, r2.1],
        right_indices := right_indices,
        i1 := r1.1,
        i2 := r2.1 }
    let s :=
      (List.range bezier_count).foldl
        (fun s i =>
          (List.range BEZIER_VCOUNT).foldl
            (ufb_inner (road.get_bezier (left.getD i 0))
              (road.get_bezier (right.getD i 0))) s)
        s0
    some (s.vertices, s.indices, s.border_indices ++ [s.i1, s.i2],
      s.right_indices)

/-- `LaneIndex` (renderer.rs lines 33-37). -/
structure LaneIndex where
  from_ : Nat
  to_ : Nat
  right_border_indices : List Nat
deriving DecidableEq

/-- `CrossSectionIndex` (renderer.rs lines 39-44). -/
structure CrossSectionIndex where
  from_ : Nat
  across : Nat
  to_ : Nat
  right_border_indices : List Nat
deriving DecidableEq

/-- The lane loop of `construct_buffers` (renderer.rs lines 165-180):
processes each lane in turn, threading the growing vertex and index
vectors; a failed assertion inside `update_from_beziers` aborts the
whole construction. -/
def build_lanes (road : Road) :
    List Lane →
    List LaneIndex × List Vertex × List Nat × List Nat →
    Option (List LaneIndex × List Vertex × List Nat × List Nat)
  | [], acc => some acc
  | lane :: rest, (lis, vs, is, bis) =>
    match update_from_beziers road vs is bis lane.left lane.right [] with
    | none => none
    | some (vs2, is2, bis2, ris) =>
        build_lanes road rest
          (lis ++ [{ from_ := lane.from_, to_ := lane.to_,
                     right_border_indices := ris }], vs2, is2, bis2)

/-- The cross-section loop of `construct_buffers`
(renderer.rs lines 182-198). -/
def build_cross_sections (road : Road) :
    List CrossSection →
    List CrossSectionIndex × List Vertex × List Nat × List Nat →
    Option (List CrossSectionIndex × List Vertex × List Nat × List Nat)
  | [], acc => some acc
  | cs :: rest, (cis, vs, is, bis) =>
    match update_from_beziers road vs is bis cs.left cs.right [] with
    | none => none
    | some (vs2, is2, bis2, ris) =>
        build_cross_sections road rest
          (cis ++ [{ from_ := cs.from_, across := cs.across,
                     to_ := cs.to_,
                     right_border_indices := ris }], vs2, is2, bis2)

/-- `construct_buffers` (renderer.rs lines 155-218), up to the GPU
buffer uploads (which are out-of-scope presentation calls): returns
the lane/cross-section index records together with the vertex, triangle
index and border index vectors, or `none` when an assertion fails. -/
def construct_buffers (road : Road) :
    Option ((List LaneIndex × List CrossSectionIndex) ×
      (List Vertex × List Nat × List Nat)) :=
  match build_lanes road road.lanes ([], [], [], []) with
  | none => none
  | some (lis, vs, is, bis) =>
    match build_cross_sections road road.cross_sections ([], vs, is, bis) with
    | none => none
    | some (cis, vs2, is2, bis2) => some ((lis, cis), (vs2, is2, bis2))

/-- `road_renderer::RoadRenderer` (renderer.rs lines 49-64): GPU buffers
are modelled by the index/vertex lists they were built from; the shader
program is an out-of-scope presentation object and is omitted. -/
structure RoadRenderer where
  lane_indices : List LaneIndex
  cross_section_indices : List CrossSectionIndex
  vertex_buffer : List Vertex
  index_buffer : List Nat
  border_index_buffer : List Nat
  chosen_index_buffer : List Nat
  road_color : ℚ × ℚ × ℚ
  border_color : ℚ × ℚ × ℚ
  chosen_color : ℚ × ℚ × ℚ
deriving DecidableEq

/-- Modelled from the spec: `RoadRenderer::update_chosen_path` (in the
`chosen_path` submodule, not among the inspected sources) rebuilds the
chosen-path index buffer from the road's chosen path, collecting the
right-border line indices of the lanes on the path; it touches no other
field of the renderer. -/
def RoadRenderer.update_chosen_path (r : RoadRenderer)
    (chosen_path : List (Nat × Nat)) : RoadRenderer :=
  let on_path := r.lane_indices.filter
    (fun li => (li.from_, li.to_) ∈ chosen_path)
  let buf := on_path.foldl (fun acc li => acc ++ li.right_border_indices) []
  { r with chosen_index_buffer := buf }

/-- `RoadRenderer::update` (renderer.rs lines 306-310): rebuilds the
chosen-path index buffer exactly when the road reports its chosen-path
changed flag. -/
def RoadRenderer.update (r : RoadRenderer) (road : Road) : RoadRenderer :=
  if road.chosen_path_changed then
    r.update_chosen_path road.chosen_path
  else r

end Sim

/-- A concrete camera for instantiating theorems: the identity
screen-to-world transform. -/
def demoCamera : Sim.Camera := ⟨fun x y => (x, y)⟩

/-- A concrete road with one lane and one cross-section, each with a
single bezier handle on both borders; all curves are constant at the
origin. -/
def demoRoad : Sim.Road :=
  { lanes := [{ from_ := 0, to_ := 1, left := [0], right := [0] }],
    cross_sections :=
      [{ from_ := 0, across := 1, to_ := 2, left := [0], right := [0] }],
    get_bezier := fun _ _ => { x := 0, y := 0 },
    chosen_path := [],
    chosen_path_changed := false }

/-- A concrete car system in the idle add-mode state. -/
def demoCarSystem : Sim.CarSystem :=
  { cars := [], add_car := Sim.AddCar.Nope,
    add_car_type := Sim.CarType.Slow, chosen_car := none }

/-- A concrete context in the idle add-mode state. -/
def demoContext : Sim.Context :=
  { camera := demoCamera, road := demoRoad, car_system := demoCarSystem }

/-- A concrete context holding a first placement point. -/
def demoContextAP : Sim.Context :=
  { demoContext with car_system :=
      { demoCarSystem with add_car := Sim.AddCar.AddedPoint (0, 0) } }

/-- A concrete environment whose path planner always succeeds, creating
a car of the requested type. -/
def demoEnv : Sim.Env :=
  { camera_step := fun cam _ => cam,
    find_car_near := fun _ _ => none,
    from_positions := fun _ _ _ t => some { car_type := t, pos := (0, 0) } }

/-- A concrete environment whose path planner never finds a path. -/
def demoEnvNone : Sim.Env :=
  { demoEnv with from_positions := fun _ _ _ _ => none }

/-- A concrete renderer with empty buffers. -/
def demoRenderer : Sim.RoadRenderer :=
  { lane_indices := [], cross_section_indices := [],
    vertex_buffer := [], index_buffer := [],
    border_index_buffer := [], chosen_index_buffer := [],
    road_color := (0, 0, 0), border_color := (0, 0, 0),
    chosen_color := (0, 0, 0) }

/-- C1: the far-left membership function returns 1 below 0.10, descends
linearly from 1 to 0 over [0.10, 0.25], returns 0 at and above 0.25,
and in particular maps 0.05 to 1, 0.25 to 0 and 0.175 to 1/2. -/
theorem far_left_membership_shape :
    (∀ x : ℚ, x < 1/10 → RoadDeviation.far_left_fn x = 1) ∧
    (∀ x : ℚ, 1/10 ≤ x → x ≤ 1/4 →
      RoadDeviation.far_left_fn x = (1/4 - x) / (1/4 - 1/10)) ∧
    (∀ x : ℚ, 1/4 ≤ x → RoadDeviation.far_left_fn x = 0) ∧
    RoadDeviation.far_left_fn (1/20) = 1 ∧
    RoadDeviation.far_left_fn (1/4) = 0 ∧
    RoadDeviation.far_left_fn (7/40) = 1/2 := by
  refine ⟨?_, ?_, ?_,
    by norm_num [RoadDeviation.far_left_fn],
    by norm_num [RoadDeviation.far_left_fn],
    by norm_num [RoadDeviation.far_left_fn]⟩
  · intro x h
    simp only [RoadDeviation.far_left_fn]
    split_ifs with h1 h2 <;> first | rfl | linarith
  · intro x h1 h2
    simp only [RoadDeviation.far_left_fn]
    split_ifs with ha hb
    · linarith
    · rfl
    · have hx : x = 1/4 := le_antisymm h2 (not_lt.mp hb)
      subst hx
      norm_num
  · intro x h
    simp only [RoadDeviation.far_left_fn]
    split_ifs with h1 h2 <;> first | rfl | linarith

/-- Witness for C1 at the concrete input 0.05. -/
theorem far_left_membership_shape_witness :
    RoadDeviation.far_left_fn (1/20) = 1 :=
  far_left_membership_shape.1 (1/20) (by norm_num)

/-- C2: the three triangular membership functions: middle-left rises
linearly 0→1 over [0.10, 0.25] and falls 1→0 over [0.25, 0.40]; middle
rises over [0.35, 0.50] and falls over [0.50, 0.65]; middle-right rises
over [0.60, 0.75] and falls over [0.75, 0.90]; each returns 0 outside
its triangle and 1 at its peak. -/
theorem triangle_memberships_shape :
    ((∀ x : ℚ, x ≤ 1/10 → RoadDeviation.middle_left_fn x = 0) ∧
     (∀ x : ℚ, 1/10 ≤ x → x ≤ 1/4 →
       RoadDeviation.middle_left_fn x = (x - 1/10) / (1/4 - 1/10)) ∧
     (∀ x : ℚ, 1/4 ≤ x → x ≤ 2/5 →
       RoadDeviation.middle_left_fn x = (2/5 - x) / (2/5 - 1/4)) ∧
     (∀ x : ℚ, 2/5 ≤ x → RoadDeviation.middle_left_fn x = 0) ∧
     RoadDeviation.middle_left_fn (1/4) = 1) ∧
    ((∀ x : ℚ, x ≤ 7/20 → RoadDeviation.middle_fn x = 0) ∧
     (∀ x : ℚ, 7/20 ≤ x → x ≤ 1/2 →
       RoadDeviation.middle_fn x = (x - 7/20) / (1/2 - 7/20)) ∧
     (∀ x : ℚ, 1/2 ≤ x → x ≤ 13/20 →
       RoadDeviation.middle_fn x = (13/20 - x) / (13/20 - 1/2)) ∧
     (∀ x : ℚ, 13/20 ≤ x → RoadDeviation.middle_fn x = 0) ∧
     RoadDeviation.middle_fn (1/2) = 1) ∧
    ((∀ x : ℚ, x ≤ 3/5 → RoadDeviation.middle_right_fn x = 0) ∧
     (∀ x : ℚ, 3/5 ≤ x → x ≤ 3/4 →
       RoadDeviation.middle_right_fn x = (x - 3/5) / (3/4 - 3/5)) ∧
     (∀ x : ℚ, 3/4 ≤ x → x ≤ 9/10 →
       RoadDeviation.middle_right_fn x = (9/10 - x) / (9/10 - 3/4)) ∧
     (∀ x : ℚ, 9/10 ≤ x → RoadDeviation.middle_right_fn x = 0) ∧
     RoadDeviation.middle_right_fn (3/4) = 1) := by
  refine ⟨⟨?_, ?_, ?_, ?_, by norm_num [RoadDeviation.middle_left_fn]⟩,
    ⟨?_, ?_, ?_, ?_, by norm_num [RoadDeviation.middle_fn]⟩,
    ⟨?_, ?_, ?_, ?_, by norm_num [RoadDeviation.middle_right_fn]⟩⟩ <;>
    intro x h1 <;> try intro h2
  all_goals simp only [RoadDeviation.middle_left_fn,
    RoadDeviation.middle_fn, RoadDeviation.middle_right_fn]
  all_goals split_ifs <;>
    first
    | rfl
    | linarith
    | (field_simp; linarith)

/-- Witness for C2 at the concrete input 0.05 (outside the middle-left
triangle). -/
theorem triangle_memberships_shape_witness :
    RoadDeviation.middle_left_fn (1/20) = 0 :=
  triangle_memberships_shape.1.1 (1/20) (by norm_num)

/-- C3: the three shoulder membership functions: left returns 1 below
0.35 and descends linearly to 0 over [0.35, 0.50], 0 thereafter; right
returns 0 below 0.50, ascends linearly over [0.50, 0.65], 1 thereafter;
far-right returns 0 below 0.75, ascends linearly over [0.75, 0.90], 1
thereafter. -/
theorem shoulder_memberships_shape :
    ((∀ x : ℚ, x < 7/20 → RoadDeviation.left_fn x = 1) ∧
     (∀ x : ℚ, 7/20 ≤ x → x ≤ 1/2 →
       RoadDeviation.left_fn x = (1/2 - x) / (1/2 - 7/20)) ∧
     (∀ x : ℚ, 1/2 ≤ x → RoadDeviation.left_fn x = 0)) ∧
    ((∀ x : ℚ, x ≤ 1/2 → RoadDeviation.right_fn x = 0) ∧
     (∀ x : ℚ, 1/2 ≤ x → x ≤ 13/20 →
       RoadDeviation.right_fn x = (x - 1/2) / (13/20 - 1/2)) ∧
     (∀ x : ℚ, 13/20 ≤ x → RoadDeviation.right_fn x = 1)) ∧
    ((∀ x : ℚ, x ≤ 3/4 → RoadDeviation.far_right_fn x = 0) ∧
     (∀ x : ℚ, 3/4 ≤ x → x ≤ 9/10 →
       RoadDeviation.far_right_fn x = (x - 3/4) / (9/10 - 3/4)) ∧
     (∀ x : ℚ, 9/10 ≤ x → RoadDeviation.far_right_fn x = 1)) := by
  refine ⟨⟨?_, ?_, ?_⟩, ⟨?_, ?_, ?_⟩, ⟨?_, ?_, ?_⟩⟩ <;>
    intro x h1 <;> try intro h2
  all_goals simp only [RoadDeviation.left_fn, RoadDeviation.right_fn,
    RoadDeviation.far_right_fn]
  all_goals split_ifs <;>
    first
    | rfl
    | linarith
    | (field_simp; linarith)

/-- Witness for C3 at the concrete input 0.70 (on the right shoulder's
ascent). -/
theorem shoulder_memberships_shape_witness :
    RoadDeviation.right_fn (7/10) = 1 :=
  shoulder_memberships_shape.2.1.2.2 (7/10) (by norm_num)

/-- C4: partition coverage: every input in [0, 1] has strictly positive
membership in at least one of the seven deviation sets. -/
theorem deviation_partition_coverage :
    ∀ x : ℚ, 0 ≤ x → x ≤ 1 →
      0 < RoadDeviation.far_left_fn x ∨
      0 < RoadDeviation.middle_left_fn x ∨
      0 < RoadDeviation.left_fn x ∨
      0 < RoadDeviation.middle_fn x ∨
      0 < RoadDeviation.right_fn x ∨
      0 < RoadDeviation.middle_right_fn x ∨
      0 < RoadDeviation.far_right_fn x := by
  intro x _ _
  rcases lt_or_le x (1/2) with hx | hx
  · refine Or.inr (Or.inr (Or.inl ?_))
    simp only [RoadDeviation.left_fn]
    split_ifs with ha hb
    · norm_num
    · exact div_pos (by linarith) (by norm_num)
  · rcases lt_or_le x (13/20) with hy | hy
    · refine Or.inr (Or.inr (Or.inr (Or.inl ?_)))
      simp only [RoadDeviation.middle_fn]
      split_ifs with ha hb
      · linarith
      · exact div_pos (by linarith) (by norm_num)
      · exact div_pos (by linarith) (by norm_num)
    · refine Or.inr (Or.inr (Or.inr (Or.inr (Or.inl ?_))))
      simp only [RoadDeviation.right_fn]
      split_ifs with ha hb
      · linarith
      · linarith
      · norm_num

/-- Witness for C4 at the concrete input 0.5 (the lane center). -/
theorem deviation_partition_coverage_witness :
    0 < RoadDeviation.far_left_fn (1/2) ∨
    0 < RoadDeviation.middle_left_fn (1/2) ∨
    0 < RoadDeviation.left_fn (1/2) ∨
    0 < RoadDeviation.middle_fn (1/2) ∨
    0 < RoadDeviation.right_fn (1/2) ∨
    0 < RoadDeviation.middle_right_fn (1/2) ∨
    0 < RoadDeviation.far_right_fn (1/2) :=
  deviation_partition_coverage (1/2) (by norm_num) (by norm_num)

/-- C5: on any engine, `RoadDeviation::new` registers exactly one input
with range [0, 1], attaches exactly seven membership sets to that
input in the order far-left, middle-left, left, middle, right,
middle-right, far-right, and stores the returned handles in the
correspondingly named fields. -/
theorem road_deviation_new_registration :
    ∀ f : Fuzzy,
      (RoadDeviation.new f).2.inputs = f.inputs ++ [(0, 1)] ∧
      (RoadDeviation.new f).1.input = f.inputs.length ∧
      (RoadDeviation.new f).2.sets = f.sets ++
        [(f.inputs.length, RoadDeviation.far_left_fn),
         (f.inputs.length, RoadDeviation.middle_left_fn),
         (f.inputs.length, RoadDeviation.left_fn),
         (f.inputs.length, RoadDeviation.middle_fn),
         (f.inputs.length, RoadDeviation.right_fn),
         (f.inputs.length, RoadDeviation.middle_right_fn),
         (f.inputs.length, RoadDeviation.far_right_fn)] ∧
      (RoadDeviation.new f).1.far_left = f.sets.length ∧
      (RoadDeviation.new f).1.middle_left = f.sets.length + 1 ∧
      (RoadDeviation.new f).1.left = f.sets.length + 2 ∧
      (RoadDeviation.new f).1.middle = f.sets.length + 3 ∧
      (RoadDeviation.new f).1.right = f.sets.length + 4 ∧
      (RoadDeviation.new f).1.middle_right = f.sets.length + 5 ∧
      (RoadDeviation.new f).1.far_right = f.sets.length + 6 := by
  intro f
  refine ⟨rfl, rfl, ?_, rfl, ?_, ?_, ?_, ?_, ?_, ?_⟩ <;>
    simp [RoadDeviation.new, Fuzzy.add_input, Fuzzy.add_input_set,
      List.append_assoc]

/-- C6: when the second placement click is processed and the path
planner finds no path between the two chosen positions, no vehicle is
added, the diagnostic message is emitted, and the add-mode state resets
to idle. -/
theorem placement_no_path_recoverable :
    ∀ (env : Sim.Env) (c : Sim.Context) (out : List String) (x y : ℚ)
      (prev : ℚ × ℚ),
      c.car_system.add_car = Sim.AddCar.AddedPoint prev →
      env.from_positions c.road prev
        (c.camera.screen_coords_to_real_position x y)
        c.car_system.add_car_type = none →
      (Sim.reduce1 env (c, out) (Sim.Action.Click x y)).1.car_system.cars
          = c.car_system.cars ∧
      (Sim.reduce1 env (c, out) (Sim.Action.Click x y)).1.car_system.add_car
          = Sim.AddCar.Nope ∧
      (Sim.reduce1 env (c, out) (Sim.Action.Click x y)).2
          = out ++ ["Error while chosing points to add a car"] := by
  intro env c out x y prev h hnone
  simp [Sim.reduce1, h, hnone]

/-- Witness for C6: a concrete click pair whose positions admit no
path. -/
theorem placement_no_path_recoverable_witness :
    (Sim.reduce1 demoEnvNone (demoContextAP, [])
        (Sim.Action.Click 0 0)).1.car_system.cars
      = demoContextAP.car_system.cars ∧
    (Sim.reduce1 demoEnvNone (demoContextAP, [])
        (Sim.Action.Click 0 0)).1.car_system.add_car
      = Sim.AddCar.Nope ∧
    (Sim.reduce1 demoEnvNone (demoContextAP, [])
        (Sim.Action.Click 0 0)).2
      = [] ++ ["Error while chosing points to add a car"] :=
  placement_no_path_recoverable demoEnvNone demoContextAP [] 0 0 (0, 0)
    rfl rfl

/-- C10: a click processed in the idle add-mode state only sets the
chosen car to the result of searching near the clicked world position;
no vehicle is created, the add-mode state stays idle, and nothing else
changes. -/
theorem idle_click_only_selects :
    ∀ (env : Sim.Env) (c : Sim.Context) (out : List String) (x y : ℚ),
      c.car_system.add_car = Sim.AddCar.Nope →
      Sim.reduce1 env (c, out) (Sim.Action.Click x y) =
        ({ c with car_system := { c.car_system with chosen_car := env.find_car_near c.car_system.cars (c.camera.screen_coords_to_real_position x y) } }, out) := by
  intro env c out x y h
  obtain ⟨cam, road, cs⟩ := c
  obtain ⟨cars, ac, act, cc⟩ := cs
  cases h
  rfl

/-- Witness for C10: a concrete click in the idle state. -/
theorem idle_click_only_selects_witness :
    Sim.reduce1 demoEnv (demoContext, []) (Sim.Action.Click 0 0) =
      ({ demoContext with car_system := { demoContext.car_system with chosen_car := demoEnv.find_car_near demoContext.car_system.cars (demoContext.camera.screen_coords_to_real_position 0 0) } }, []) :=
  idle_click_only_selects demoEnv demoContext [] 0 0 rfl

/-- Per-step effect of the reducer on the pending vehicle type: only
the AddCar and AddCarSlow commands change it. -/
theorem reduce1_add_car_type (env : Sim.Env)
    (s : Sim.Context × List String) (a : Sim.Action) :
    (Sim.reduce1 env s a).1.car_system.add_car_type =
      match a with
      | Sim.Action.AddCar => Sim.CarType.Normal Sim.CarState.GoNormal
      | Sim.Action.AddCarSlow => Sim.CarType.Slow
      | _ => s.1.car_system.add_car_type := by
  cases a with
  | Camera ca => rfl
  | Click x y =>
      cases h : s.1.car_system.add_car with
      | Nope => simp [Sim.reduce1, h]
      | Adding => simp [Sim.reduce1, h]
      | AddedPoint prev =>
          cases hfp : env.from_positions s.1.road prev
              (s.1.camera.screen_coords_to_real_position x y)
              s.1.car_system.add_car_type with
          | none => simp [Sim.reduce1, h, hfp]
          | some car => simp [Sim.reduce1, h, hfp, Sim.CarSystem.add]
  | Esc => rfl
  | AddCar => rfl
  | AddCarSlow => rfl

/-- Trace-level effect of the reducer on the pending vehicle type: it
equals the type of the most recent AddCar/AddCarSlow command. -/
theorem reduce_add_car_type (env : Sim.Env) :
    ∀ (acts : List Sim.Action) (s : Sim.Context × List String),
      (Sim.reduce env s acts).1.car_system.add_car_type =
        Sim.lastTypeSet acts s.1.car_system.add_car_type := by
  intro acts
  induction acts with
  | nil => intro s; rfl
  | cons a rest ih =>
      intro s
      show (Sim.reduce env (Sim.reduce1 env s a) rest).1.car_system.add_car_type = _
      rw [ih, reduce1_add_car_type]
      cases a <;> rfl

/-- C7: the set-next-vehicle-type commands select the pending CarType
(AddCar selects Normal with state GoNormal, AddCarSlow selects Slow);
after any action sequence the pending type is the one set by the most
recent such command; a completed placement creates a vehicle carrying
exactly the pending type and resets the add-mode state to idle; and no
other action creates a vehicle, so the command affects only the next
completed placement. -/
theorem next_vehicle_type_commands :
    ∀ env : Sim.Env,
      (∀ (rd : Sim.Road) (p q : ℚ × ℚ) (t : Sim.CarType) (car : Sim.Car),
        env.from_positions rd p q t = some car → car.car_type = t) →
      (∀ s : Sim.Context × List String,
        (Sim.reduce1 env s Sim.Action.AddCar).1.car_system.add_car_type =
          Sim.CarType.Normal Sim.CarState.GoNormal ∧
        (Sim.reduce1 env s Sim.Action.AddCar).1.car_system.add_car =
          Sim.AddCar.Adding ∧
        (Sim.reduce1 env s Sim.Action.AddCarSlow).1.car_system.add_car_type =
          Sim.CarType.Slow ∧
        (Sim.reduce1 env s Sim.Action.AddCarSlow).1.car_system.add_car =
          Sim.AddCar.Adding) ∧
      (∀ (acts : List Sim.Action) (s : Sim.Context × List String),
        (Sim.reduce env s acts).1.car_system.add_car_type =
          Sim.lastTypeSet acts s.1.car_system.add_car_type) ∧
      (∀ (s : Sim.Context × List String) (x y : ℚ) (prev : ℚ × ℚ),
        s.1.car_system.add_car = Sim.AddCar.AddedPoint prev →
        (Sim.reduce1 env s (Sim.Action.Click x y)).1.car_system.add_car =
          Sim.AddCar.Nope ∧
        ∀ car,
          car ∈ (Sim.reduce1 env s (Sim.Action.Click x y)).1.car_system.cars →
          car ∈ s.1.car_system.cars ∨
            car.car_type = s.1.car_system.add_car_type) ∧
      (∀ (s : Sim.Context × List String) (a : Sim.Action),
        (Sim.reduce1 env s a).1.car_system.cars = s.1.car_system.cars ∨
        ∃ (x y : ℚ) (prev : ℚ × ℚ) (car : Sim.Car),
          a = Sim.Action.Click x y ∧
          s.1.car_system.add_car = Sim.AddCar.AddedPoint prev ∧
          car.car_type = s.1.car_system.add_car_type ∧
          (Sim.reduce1 env s a).1.car_system.cars =
            s.1.car_system.cars ++ [car]) := by
  intro env henv
  refine ⟨fun s => ⟨rfl, rfl, rfl, rfl⟩, reduce_add_car_type env, ?_, ?_⟩
  · intro s x y prev h
    cases hfp : env.from_positions s.1.road prev
        (s.1.camera.screen_coords_to_real_position x y)
        s.1.car_system.add_car_type with
    | none =>
        refine ⟨by simp [Sim.reduce1, h, hfp], ?_⟩
        intro car hcar
        left
        simpa [Sim.reduce1, h, hfp] using hcar
    | some car0 =>
        refine ⟨by simp [Sim.reduce1, h, hfp, Sim.CarSystem.add], ?_⟩
        intro car hcar
        rw [show (Sim.reduce1 env s (Sim.Action.Click x y)).1.car_system.cars
            = s.1.car_system.cars ++ [car0] by
          simp [Sim.reduce1, h, hfp, Sim.CarSystem.add]] at hcar
        rcases List.mem_append.mp hcar with hin | hin
        · exact Or.inl hin
        · right
          rw [List.mem_singleton.mp hin]
          exact henv _ _ _ _ _ hfp
  · intro s a
    cases a with
    | Camera ca => exact Or.inl rfl
    | Esc => exact Or.inl rfl
    | AddCar => exact Or.inl rfl
    | AddCarSlow => exact Or.inl rfl
    | Click x y =>
        cases h : s.1.car_system.add_car with
        | Nope => left; simp [Sim.reduce1, h]
        | Adding => left; simp [Sim.reduce1, h]
        | AddedPoint prev =>
            cases hfp : env.from_positions s.1.road prev
                (s.1.camera.screen_coords_to_real_position x y)
                s.1.car_system.add_car_type with
            | none => left; simp [Sim.reduce1, h, hfp]
            | some car0 =>
                right
                refine ⟨x, y, prev, car0, rfl, rfl, henv _ _ _ _ _ hfp, ?_⟩
                simp [Sim.reduce1, h, hfp, Sim.CarSystem.add]

/-- Witness for C7: the selection conjunct instantiated at a concrete
environment and context. -/
theorem next_vehicle_type_commands_witness :
    (Sim.reduce1 demoEnv (demoContext, [])
        Sim.Action.AddCar).1.car_system.add_car_type =
      Sim.CarType.Normal Sim.CarState.GoNormal ∧
    (Sim.reduce1 demoEnv (demoContext, [])
        Sim.Action.AddCar).1.car_system.add_car = Sim.AddCar.Adding ∧
    (Sim.reduce1 demoEnv (demoContext, [])
        Sim.Action.AddCarSlow).1.car_system.add_car_type =
      Sim.CarType.Slow ∧
    (Sim.reduce1 demoEnv (demoContext, [])
        Sim.Action.AddCarSlow).1.car_system.add_car = Sim.AddCar.Adding :=
  (next_vehicle_type_commands demoEnv
    (fun rd p q t car h => by cases h; rfl)).1 (demoContext, [])

/-- `update_from_beziers` succeeds exactly when the left border is
nonempty and the left and right borders have equal bezier counts; a
violation of either assertion is a fatal error (`none`). -/
theorem update_from_beziers_isSome (road : Sim.Road)
    (vertices : List Sim.Vertex) (indices border_indices : List Nat)
    (left right : List Nat) (right_indices : List Nat) :
    (Sim.update_from_beziers road vertices indices border_indices
        left right right_indices).isSome = true ↔
      (0 < left.length ∧ left.length = right.length) := by
  by_cases h1 : 0 < left.length
  · by_cases h2 : left.length = right.length
    · simp [Sim.update_from_beziers, h1, h2, List.length_pos]
    · simp [Sim.update_from_beziers, h1, h2]
  · simp [Sim.update_from_beziers, h1]

/-- Every lane processed by a successful lane-buffer pass satisfies the
boundary-count invariant. -/
theorem build_lanes_counts (road : Sim.Road) :
    ∀ (lanes : List Sim.Lane)
      (acc : List Sim.LaneIndex × List Sim.Vertex × List Nat × List Nat),
      (Sim.build_lanes road lanes acc).isSome = true →
      ∀ lane ∈ lanes,
        0 < lane.left.length ∧ lane.left.length = lane.right.length := by
  intro lanes
  induction lanes with
  | nil => intro acc _ lane hl; cases hl
  | cons l rest ih =>
      intro acc hsome lane hl
      obtain ⟨lis, vs, is, bis⟩ := acc
      cases hfp : Sim.update_from_beziers road vs is bis l.left l.right []
          with
      | none => rw [Sim.build_lanes, hfp] at hsome; cases hsome
      | some r =>
          obtain ⟨vs2, is2, bis2, ris⟩ := r
          rw [Sim.build_lanes, hfp] at hsome
          rcases List.mem_cons.mp hl with heq | hin
          · subst heq
            exact (update_from_beziers_isSome road vs is bis
              lane.left lane.right []).mp (by rw [hfp]; rfl)
          · exact ih _ hsome lane hin

/-- Every cross-section processed by a successful cross-section-buffer
pass satisfies the boundary-count invariant. -/
theorem build_cross_sections_counts (road : Sim.Road) :
    ∀ (css : List Sim.CrossSection)
      (acc : List Sim.CrossSectionIndex × List Sim.Vertex ×
        List Nat × List Nat),
      (Sim.build_cross_sections road css acc).isSome = true →
      ∀ cs ∈ css,
        0 < cs.left.length ∧ cs.left.length = cs.right.length := by
  intro css
  induction css with
  | nil => intro acc _ cs hc; cases hc
  | cons c rest ih =>
      intro acc hsome cs hc
      obtain ⟨cis, vs, is, bis⟩ := acc
      cases hfp : Sim.update_from_beziers road vs is bis c.left c.right []
          with
      | none => rw [Sim.build_cross_sections, hfp] at hsome; cases hsome
      | some r =>
          obtain ⟨vs2, is2, bis2, ris⟩ := r
          rw [Sim.build_cross_sections, hfp] at hsome
          rcases List.mem_cons.mp hc with heq | hin
          · subst heq
            exact (update_from_beziers_isSome road vs is bis
              cs.left cs.right []).mp (by rw [hfp]; rfl)
          · exact ih _ hsome cs hin

/-- C8: an empty or mismatched left/right boundary bezier sequence is a
fatal (failed-assertion) error in `update_from_beziers`, and therefore
every lane and cross-section of a road whose render buffers were built
successfully has equal, nonzero left/right boundary segment counts. -/
theorem boundary_counts_invariant :
    (∀ (road : Sim.Road) (vertices : List Sim.Vertex)
       (indices border_indices : List Nat) (left right : List Nat)
       (right_indices : List Nat),
      (Sim.update_from_beziers road vertices indices border_indices
          left right right_indices).isSome = true ↔
        (0 < left.length ∧ left.length = right.length)) ∧
    (∀ road : Sim.Road, (Sim.construct_buffers road).isSome = true →
      (∀ lane ∈ road.lanes,
        0 < lane.left.length ∧ lane.left.length = lane.right.length) ∧
      (∀ cs ∈ road.cross_sections,
        0 < cs.left.length ∧ cs.left.length = cs.right.length)) := by
  refine ⟨update_from_beziers_isSome, ?_⟩
  intro road h
  cases hbl : Sim.build_lanes road road.lanes ([], [], [], []) with
  | none => simp [Sim.construct_buffers, hbl] at h
  | some r =>
      obtain ⟨lis, vs, is, bis⟩ := r
      cases hbc : Sim.build_cross_sections road road.cross_sections
          ([], vs, is, bis) with
      | none => simp [Sim.construct_buffers, hbl, hbc] at h
      | some r2 =>
          refine ⟨build_lanes_counts road road.lanes ([], [], [], [])
              (by rw [hbl]; rfl), ?_⟩
          exact build_cross_sections_counts road road.cross_sections
            ([], vs, is, bis) (by rw [hbc]; rfl)

/-- Witness for C8: the invariant extracted for the lane of a concrete
road whose buffers build successfully. -/
theorem boundary_counts_invariant_witness :
    0 < (Sim.Lane.mk 0 1 [0] [0]).left.length ∧
    (Sim.Lane.mk 0 1 [0] [0]).left.length =
      (Sim.Lane.mk 0 1 [0] [0]).right.length :=
  (boundary_counts_invariant.2 demoRoad (by rfl)).1
    (Sim.Lane.mk 0 1 [0] [0]) (by simp [demoRoad])

/-- C9: `RoadRenderer::update` rebuilds the chosen-path index buffer
exactly when the road reports its chosen-path changed flag; when the
flag is clear the renderer is left entirely unchanged, and when it is
set only the chosen-path index buffer is replaced. -/
theorem renderer_update_chosen_flag :
    ∀ (r : Sim.RoadRenderer) (road : Sim.Road),
      (road.chosen_path_changed = false →
        Sim.RoadRenderer.update r road = r) ∧
      (road.chosen_path_changed = true →
        Sim.RoadRenderer.update r road =
          Sim.RoadRenderer.update_chosen_path r road.chosen_path ∧
        (Sim.RoadRenderer.update r road).lane_indices = r.lane_indices ∧
        (Sim.RoadRenderer.update r road).cross_section_indices =
          r.cross_section_indices ∧
        (Sim.RoadRenderer.update r road).vertex_buffer = r.vertex_buffer ∧
        (Sim.RoadRenderer.update r road).index_buffer = r.index_buffer ∧
        (Sim.RoadRenderer.update r road).border_index_buffer =
          r.border_index_buffer) := by
  intro r road
  constructor
  · intro h
    simp [Sim.RoadRenderer.update, h]
  · intro h
    refine ⟨by simp [Sim.RoadRenderer.update, h], ?_, ?_, ?_, ?_, ?_⟩ <;>
      simp [Sim.RoadRenderer.update, Sim.RoadRenderer.update_chosen_path, h]

/-- Witness for C9: updating against a concrete road whose chosen-path
flag is clear leaves the concrete renderer unchanged. -/
theorem renderer_update_chosen_flag_witness :
    Sim.RoadRenderer.update demoRenderer demoRoad = demoRenderer :=
  (renderer_update_chosen_flag demoRenderer demoRoad).1 rfl
